import Mathlib

/-!
Verification development for the `iso10962` repository (crate `iso10962-types`),
a typed decoder for ISO 10962 CFI codes.

The definitions below are a shallow embedding of the Rust source:
- byte slices (`&[u8]`) are modelled as `List Char` (every byte the code
  inspects is compared against ASCII byte literals, and error payloads are
  produced via `as char`, so characters are a faithful carrier);
- fallible `const fn`s returning `Result<T, Error>` are modelled by `Res`,
  which adds a `panicked` outcome to account for Rust's panic on an
  out-of-bounds slice index (`value[idx]` with `idx ≥ value.len()`);
- the `impl_attr!` / `impl_group!` / `impl_category!` macros of
  `src/macros.rs` are embedded once each as generic schemes
  (`attrFromBytes`, `Res.bind` chains, and the category dispatch shape),
  instantiated per type exactly as the macro expansion would be;
- `impl_attr!` appends `Undefined = b'X'` to each generated enum outside
  the variant repetition, so each generated `from_byte` has match arms
  only for the declared members: `from_byte(b'X')` falls through to the
  `InvalidAttribute(0, 'X')` error arm, and no decode path ever produces
  an `Undefined` value.

`src/lib.rs` declares `mod error` but `error.rs` is not present in the
source tree; the `Error` type is therefore modelled from the spec (§7) and
from its usage sites in `macros.rs` and `lib.rs`.
-/

set_option autoImplicit false

/-- Modelled from the spec: the error taxonomy of §7 of the specification
(`error.rs` is declared in `lib.rs` but missing from the source tree).
Constructor shapes follow the usage sites in `macros.rs` and `lib.rs`:
`Error::InvalidLength`, `Error::InvalidCategory(char)`,
`Error::InvalidGroup(char)`, `Error::InvalidAttribute(usize, char)`. -/
inductive Error where
  | InvalidLength
  | InvalidCategory (c : Char)
  | InvalidGroup (c : Char)
  | InvalidAttribute (position : Nat) (c : Char)
deriving DecidableEq, Repr

/-- Outcome of one of the crate's `const fn`s: the Rust `Result<α, Error>`
(`ok` / `err`), extended with `panicked` for the abort that Rust's
out-of-bounds slice indexing produces. -/
inductive Res (α : Type) where
  | ok (value : α)
  | err (error : Error)
  | panicked
deriving DecidableEq, Repr

/-- Propagation of `Res` through the `match ... { Ok(v) => v, Err(e) => return Err(e) }`
early-return pattern used by the generated `from_bytes` bodies; a panic in the
scrutinee aborts the whole computation, as in Rust. -/
def Res.bind {α β : Type} : Res α → (α → Res β) → Res β
  | Res.ok value, f => f value
  | Res.err error, _ => Res.err error
  | Res.panicked, _ => Res.panicked

/-- Propagation of `Res` through the `match ... { Ok(v) => Ok(C(v)), Err(e) => Err(e) }`
wrapping pattern used by the generated category and root dispatchers. -/
def Res.map {α β : Type} (f : α → β) : Res α → Res β
  | Res.ok value => Res.ok (f value)
  | Res.err error => Res.err error
  | Res.panicked => Res.panicked

/-- `CFI_LENGTH` from `lib.rs`: the length of a CFI code, in bytes. -/
def CFI_LENGTH : Nat := 6

/-- `CATEGORY_IDX` from `lib.rs`: the byte index of the category character. -/
def CATEGORY_IDX : Nat := 0

/-- `GROUP_IDX` from `lib.rs`: the byte index of the group character. -/
def GROUP_IDX : Nat := 1

/-- Rust slice indexing `value[idx]`: yields the element, or panics when the
index is out of bounds. -/
def sliceIndex (value : List Char) (idx : Nat) : Res Char :=
  match value.get? idx with
  | some b => Res.ok b
  | none => Res.panicked

/-- The `from_bytes` body generated by `impl_attr!` in `macros.rs`, generic
over the attribute's `from_byte` (the macro generates one copy per attribute
type): length-gate the slice, read `value[idx]`, and rebase an
`InvalidAttribute` error's position from `0` to `idx`. -/
def attrFromBytes {α : Type} (fromByte : Char → Res α)
    (value : List Char) (idx : Nat) : Res α :=
  if value.length ≠ CFI_LENGTH then
    Res.err Error.InvalidLength
  else
    Res.bind (sliceIndex value idx) fun b =>
      match fromByte b with
      | Res.err (Error.InvalidAttribute _ val) =>
          Res.err (Error.InvalidAttribute idx val)
      | other => other

/-- `Form` from `lib.rs` (attribute positions [5]): negotiability and
transmission; members `B`, `R`, `N`, `M` plus the appended
`Undefined = b'X'` variant (which `from_byte` does not match). -/
inductive Form where
  | Bearer
  | Registered
  | BearerRegistered
  | Other
  | Undefined
deriving DecidableEq, Repr

/-- `Form::from_byte` as generated by `impl_attr!`. -/
def Form.from_byte (value : Char) : Res Form :=
  match value with
  | 'B' => Res.ok Form.Bearer
  | 'R' => Res.ok Form.Registered
  | 'N' => Res.ok Form.BearerRegistered
  | 'M' => Res.ok Form.Other
  | other => Res.err (Error.InvalidAttribute 0 other)

/-- `Form::from_bytes` as generated by `impl_attr!`. -/
def Form.from_bytes (value : List Char) (idx : Nat) : Res Form :=
  attrFromBytes Form.from_byte value idx

/-- `NotApplicable` from `lib.rs` (attribute positions [2, 3, 4, 5]): the
empty attribute enumeration; only the appended `Undefined = b'X'` variant
exists, and the generated `from_byte` has only the error arm, so it
accepts no byte at all. -/
inductive NotApplicable where
  | Undefined
deriving DecidableEq, Repr

/-- `NotApplicable::from_byte` as generated by `impl_attr!`. -/
def NotApplicable.from_byte (value : Char) : Res NotApplicable :=
  match value with
  | other => Res.err (Error.InvalidAttribute 0 other)

/-- `NotApplicable::from_bytes` as generated by `impl_attr!`. -/
def NotApplicable.from_bytes (value : List Char) (idx : Nat) : Res NotApplicable :=
  attrFromBytes NotApplicable.from_byte value idx

namespace equities

/-- `VotingRight` from `equities.rs` (attribute positions [2]): the kind of
voting power conferred to the shareholder; members `V`, `N`, `R`, `E` plus the appended
`Undefined = b'X'` variant (which `from_byte` does not match). -/
inductive VotingRight where
  | Voting
  | NonVoting
  | Restricted
  | Enhanced
  | Undefined
deriving DecidableEq, Repr

/-- `VotingRight::from_byte` as generated by `impl_attr!`. -/
def VotingRight.from_byte (value : Char) : Res VotingRight :=
  match value with
  | 'V' => Res.ok VotingRight.Voting
  | 'N' => Res.ok VotingRight.NonVoting
  | 'R' => Res.ok VotingRight.Restricted
  | 'E' => Res.ok VotingRight.Enhanced
  | other => Res.err (Error.InvalidAttribute 0 other)

/-- `VotingRight::from_bytes` as generated by `impl_attr!`. -/
def VotingRight.from_bytes (value : List Char) (idx : Nat) : Res VotingRight :=
  attrFromBytes VotingRight.from_byte value idx

/-- `Ownership` from `equities.rs` (attribute positions [3]):
ownership/transfer/sales restrictions; members `T`, `U` plus the appended
`Undefined = b'X'` variant (which `from_byte` does not match). -/
inductive Ownership where
  | Restricted
  | Free
  | Undefined
deriving DecidableEq, Repr

/-- `Ownership::from_byte` as generated by `impl_attr!`. -/
def Ownership.from_byte (value : Char) : Res Ownership :=
  match value with
  | 'T' => Res.ok Ownership.Restricted
  | 'U' => Res.ok Ownership.Free
  | other => Res.err (Error.InvalidAttribute 0 other)

/-- `Ownership::from_bytes` as generated by `impl_attr!`. -/
def Ownership.from_bytes (value : List Char) (idx : Nat) : Res Ownership :=
  attrFromBytes Ownership.from_byte value idx

/-- `PaymentStatus` from `equities.rs` (attribute positions [4]): members
`F`, `O`, `P` plus the appended
`Undefined = b'X'` variant (which `from_byte` does not match). -/
inductive PaymentStatus where
  | Fully
  | Nil
  | Partial
  | Undefined
deriving DecidableEq, Repr

/-- `PaymentStatus::from_byte` as generated by `impl_attr!`. -/
def PaymentStatus.from_byte (value : Char) : Res PaymentStatus :=
  match value with
  | 'F' => Res.ok PaymentStatus.Fully
  | 'O' => Res.ok PaymentStatus.Nil
  | 'P' => Res.ok PaymentStatus.Partial
  | other => Res.err (Error.InvalidAttribute 0 other)

/-- `PaymentStatus::from_bytes` as generated by `impl_attr!`. -/
def PaymentStatus.from_bytes (value : List Char) (idx : Nat) : Res PaymentStatus :=
  attrFromBytes PaymentStatus.from_byte value idx

/-- `Redemption` from `equities.rs` (attribute positions [3]): the
retirement provisions made for the shares; members `R`, `E`, `T`, `G`, `A`,
`C`, `N` plus the appended
`Undefined = b'X'` variant (which `from_byte` does not match). -/
inductive Redemption where
  | Redeemable
  | Extendible
  | RedeemableExtendible
  | Exchangeable
  | RedeemableExchangeableExtendible
  | RedeemableExchangeable
  | Perpetual
  | Undefined
deriving DecidableEq, Repr

/-- `Redemption::from_byte` as generated by `impl_attr!`. -/
def Redemption.from_byte (value : Char) : Res Redemption :=
  match value with
  | 'R' => Res.ok Redemption.Redeemable
  | 'E' => Res.ok Redemption.Extendible
  | 'T' => Res.ok Redemption.RedeemableExtendible
  | 'G' => Res.ok Redemption.Exchangeable
  | 'A' => Res.ok Redemption.RedeemableExchangeableExtendible
  | 'C' => Res.ok Redemption.RedeemableExchangeable
  | 'N' => Res.ok Redemption.Perpetual
  | other => Res.err (Error.InvalidAttribute 0 other)

/-- `Redemption::from_bytes` as generated by `impl_attr!`. -/
def Redemption.from_bytes (value : List Char) (idx : Nat) : Res Redemption :=
  attrFromBytes Redemption.from_byte value idx

/-- `Income` from `equities.rs` (attribute positions [4]): the kind of
dividend income the shareholders are entitled to; members `F`, `C`, `P`,
`Q`, `A`, `N`, `U` plus the appended
`Undefined = b'X'` variant (which `from_byte` does not match). -/
inductive Income where
  | FixedRate
  | CumulativeFixedRate
  | Participating
  | CumulativeParticipating
  | AdjustableRate
  | NormalRate
  | AuctionRate
  | Undefined
deriving DecidableEq, Repr

/-- `Income::from_byte` as generated by `impl_attr!`. -/
def Income.from_byte (value : Char) : Res Income :=
  match value with
  | 'F' => Res.ok Income.FixedRate
  | 'C' => Res.ok Income.CumulativeFixedRate
  | 'P' => Res.ok Income.Participating
  | 'Q' => Res.ok Income.CumulativeParticipating
  | 'A' => Res.ok Income.AdjustableRate
  | 'N' => Res.ok Income.NormalRate
  | 'U' => Res.ok Income.AuctionRate
  | other => Res.err (Error.InvalidAttribute 0 other)

/-- `Income::from_bytes` as generated by `impl_attr!`. -/
def Income.from_bytes (value : List Char) (idx : Nat) : Res Income :=
  attrFromBytes Income.from_byte value idx

/-- `Dependency` from `equities.rs` (attribute positions [2]): instrument
dependency for depository receipts; members `S`, `P`, `C`, `F`, `L`, `M`
plus the appended
`Undefined = b'X'` variant (which `from_byte` does not match). -/
inductive Dependency where
  | Common
  | Preferred
  | CommonConvertible
  | PreferredConvertible
  | LlpUnit
  | Other
  | Undefined
deriving DecidableEq, Repr

/-- `Dependency::from_byte` as generated by `impl_attr!`. -/
def Dependency.from_byte (value : Char) : Res Dependency :=
  match value with
  | 'S' => Res.ok Dependency.Common
  | 'P' => Res.ok Dependency.Preferred
  | 'C' => Res.ok Dependency.CommonConvertible
  | 'F' => Res.ok Dependency.PreferredConvertible
  | 'L' => Res.ok Dependency.LlpUnit
  | 'M' => Res.ok Dependency.Other
  | other => Res.err (Error.InvalidAttribute 0 other)

/-- `Dependency::from_bytes` as generated by `impl_attr!`. -/
def Dependency.from_bytes (value : List Char) (idx : Nat) : Res Dependency :=
  attrFromBytes Dependency.from_byte value idx

/-- `RedemptionConversion` from `equities.rs` (attribute positions [3]):
redemption/conversion of the underlying assets; members `R`, `N`, `B`, `D`
plus the appended
`Undefined = b'X'` variant (which `from_byte` does not match). -/
inductive RedemptionConversion where
  | Redeemable
  | Perpetual
  | Convertible
  | ConvertibleRedeemable
  | Undefined
deriving DecidableEq, Repr

/-- `RedemptionConversion::from_byte` as generated by `impl_attr!`. -/
def RedemptionConversion.from_byte (value : Char) : Res RedemptionConversion :=
  match value with
  | 'R' => Res.ok RedemptionConversion.Redeemable
  | 'N' => Res.ok RedemptionConversion.Perpetual
  | 'B' => Res.ok RedemptionConversion.Convertible
  | 'D' => Res.ok RedemptionConversion.ConvertibleRedeemable
  | other => Res.err (Error.InvalidAttribute 0 other)

/-- `RedemptionConversion::from_bytes` as generated by `impl_attr!`. -/
def RedemptionConversion.from_bytes (value : List Char) (idx : Nat) : Res RedemptionConversion :=
  attrFromBytes RedemptionConversion.from_byte value idx

/-- `Kind` from `equities.rs` (attribute positions [2]): the structured
instrument type; members `A`, `B`, `C`, `D`, `E`, `M` plus the appended
`Undefined = b'X'` variant (which `from_byte` does not match). -/
inductive Kind where
  | Tracker
  | Outperforming
  | Bonus
  | OutperformanceBonus
  | TwinWin
  | Other
  | Undefined
deriving DecidableEq, Repr

/-- `Kind::from_byte` as generated by `impl_attr!`. -/
def Kind.from_byte (value : Char) : Res Kind :=
  match value with
  | 'A' => Res.ok Kind.Tracker
  | 'B' => Res.ok Kind.Outperforming
  | 'C' => Res.ok Kind.Bonus
  | 'D' => Res.ok Kind.OutperformanceBonus
  | 'E' => Res.ok Kind.TwinWin
  | 'M' => Res.ok Kind.Other
  | other => Res.err (Error.InvalidAttribute 0 other)

/-- `Kind::from_bytes` as generated by `impl_attr!`. -/
def Kind.from_bytes (value : List Char) (idx : Nat) : Res Kind :=
  attrFromBytes Kind.from_byte value idx

/-- `Distribution` from `equities.rs` (attribute positions [3]): the cash
distribution provided by the structured instrument; members `D`, `Y`, `M`
plus the appended
`Undefined = b'X'` variant (which `from_byte` does not match). -/
inductive Distribution where
  | Dividend
  | None
  | Other
  | Undefined
deriving DecidableEq, Repr

/-- `Distribution::from_byte` as generated by `impl_attr!`. -/
def Distribution.from_byte (value : Char) : Res Distribution :=
  match value with
  | 'D' => Res.ok Distribution.Dividend
  | 'Y' => Res.ok Distribution.None
  | 'M' => Res.ok Distribution.Other
  | other => Res.err (Error.InvalidAttribute 0 other)

/-- `Distribution::from_bytes` as generated by `impl_attr!`. -/
def Distribution.from_bytes (value : List Char) (idx : Nat) : Res Distribution :=
  attrFromBytes Distribution.from_byte value idx

/-- `Repayment` from `equities.rs` (attribute positions [4]): the repayment
form provided by the structured instrument; members `F`, `V`, `E`, `M` plus the appended
`Undefined = b'X'` variant (which `from_byte` does not match). -/
inductive Repayment where
  | Cash
  | Physical
  | Elect
  | Other
  | Undefined
deriving DecidableEq, Repr

/-- `Repayment::from_byte` as generated by `impl_attr!`. -/
def Repayment.from_byte (value : Char) : Res Repayment :=
  match value with
  | 'F' => Res.ok Repayment.Cash
  | 'V' => Res.ok Repayment.Physical
  | 'E' => Res.ok Repayment.Elect
  | 'M' => Res.ok Repayment.Other
  | other => Res.err (Error.InvalidAttribute 0 other)

/-- `Repayment::from_bytes` as generated by `impl_attr!`. -/
def Repayment.from_bytes (value : List Char) (idx : Nat) : Res Repayment :=
  attrFromBytes Repayment.from_byte value idx

/-- `Underlying` from `equities.rs` (attribute positions [5]): the type of
underlying assets in which the structured instrument participates; members
`B`, `S`, `D`, `G`, `T`, `C`, `I`, `N`, `M` plus the appended
`Undefined = b'X'` variant (which `from_byte` does not match). -/
inductive Underlying where
  | Baskets
  | Equities
  | Debt
  | Derivatives
  | Commodities
  | Currencies
  | Indices
  | Rates
  | Other
  | Undefined
deriving DecidableEq, Repr

/-- `Underlying::from_byte` as generated by `impl_attr!`. -/
def Underlying.from_byte (value : Char) : Res Underlying :=
  match value with
  | 'B' => Res.ok Underlying.Baskets
  | 'S' => Res.ok Underlying.Equities
  | 'D' => Res.ok Underlying.Debt
  | 'G' => Res.ok Underlying.Derivatives
  | 'T' => Res.ok Underlying.Commodities
  | 'C' => Res.ok Underlying.Currencies
  | 'I' => Res.ok Underlying.Indices
  | 'N' => Res.ok Underlying.Rates
  | 'M' => Res.ok Underlying.Other
  | other => Res.err (Error.InvalidAttribute 0 other)

/-- `Underlying::from_bytes` as generated by `impl_attr!`. -/
def Underlying.from_bytes (value : List Char) (idx : Nat) : Res Underlying :=
  attrFromBytes Underlying.from_byte value idx

/-- `Common` from `equities.rs`: attributes applicable to common stock,
with the per-field offsets `1`, `2`, `3`, `4` written in the source. -/
structure Common where
  voting_right : VotingRight
  ownership : Ownership
  payment_status : PaymentStatus
  form : Form
deriving DecidableEq, Repr

/-- `Common::from_bytes` as generated by `impl_group!`: each field is
decoded by `<field type>::from_bytes(src, offset + 2)` with early return on
the first error, in declaration order. -/
def Common.from_bytes (src : List Char) : Res Common :=
  Res.bind (VotingRight.from_bytes src (1 + 2)) fun voting_right =>
  Res.bind (Ownership.from_bytes src (2 + 2)) fun ownership =>
  Res.bind (PaymentStatus.from_bytes src (3 + 2)) fun payment_status =>
  Res.bind (Form.from_bytes src (4 + 2)) fun form =>
  Res.ok { voting_right, ownership, payment_status, form }

/-- `Preferred` from `equities.rs`: attributes applicable to preferred
shares, field offsets `1`, `2`, `3`, `4`. -/
structure Preferred where
  voting_right : VotingRight
  redemption : Redemption
  income : Income
  form : Form
deriving DecidableEq, Repr

/-- `Preferred::from_bytes` as generated by `impl_group!`. -/
def Preferred.from_bytes (src : List Char) : Res Preferred :=
  Res.bind (VotingRight.from_bytes src (1 + 2)) fun voting_right =>
  Res.bind (Redemption.from_bytes src (2 + 2)) fun redemption =>
  Res.bind (Income.from_bytes src (3 + 2)) fun income =>
  Res.bind (Form.from_bytes src (4 + 2)) fun form =>
  Res.ok { voting_right, redemption, income, form }

/-- `Convertible` from `equities.rs`: attributes applicable to convertible
equities, field offsets `1`, `2`, `3`, `4`. -/
structure Convertible where
  voting_right : VotingRight
  ownership : Ownership
  payment_status : PaymentStatus
  form : Form
deriving DecidableEq, Repr

/-- `Convertible::from_bytes` as generated by `impl_group!`. -/
def Convertible.from_bytes (src : List Char) : Res Convertible :=
  Res.bind (VotingRight.from_bytes src (1 + 2)) fun voting_right =>
  Res.bind (Ownership.from_bytes src (2 + 2)) fun ownership =>
  Res.bind (PaymentStatus.from_bytes src (3 + 2)) fun payment_status =>
  Res.bind (Form.from_bytes src (4 + 2)) fun form =>
  Res.ok { voting_right, ownership, payment_status, form }

/-- `PreferredConvertible` from `equities.rs`: attributes applicable to
preferred/preference convertible equities, field offsets `1`, `2`, `3`,
`4`. -/
structure PreferredConvertible where
  voting_right : VotingRight
  redemption : Redemption
  income : Income
  form : Form
deriving DecidableEq, Repr

/-- `PreferredConvertible::from_bytes` as generated by `impl_group!`. -/
def PreferredConvertible.from_bytes (src : List Char) : Res PreferredConvertible :=
  Res.bind (VotingRight.from_bytes src (1 + 2)) fun voting_right =>
  Res.bind (Redemption.from_bytes src (2 + 2)) fun redemption =>
  Res.bind (Income.from_bytes src (3 + 2)) fun income =>
  Res.bind (Form.from_bytes src (4 + 2)) fun form =>
  Res.ok { voting_right, redemption, income, form }

/-- `LlpUnit` from `equities.rs`: attributes applicable to limited
partnership units, field offsets `1`, `2`, `3`, `4`. -/
structure LlpUnit where
  voting_right : VotingRight
  ownership : Ownership
  payment_status : PaymentStatus
  form : Form
deriving DecidableEq, Repr

/-- `LlpUnit::from_bytes` as generated by `impl_group!`. -/
def LlpUnit.from_bytes (src : List Char) : Res LlpUnit :=
  Res.bind (VotingRight.from_bytes src (1 + 2)) fun voting_right =>
  Res.bind (Ownership.from_bytes src (2 + 2)) fun ownership =>
  Res.bind (PaymentStatus.from_bytes src (3 + 2)) fun payment_status =>
  Res.bind (Form.from_bytes src (4 + 2)) fun form =>
  Res.ok { voting_right, ownership, payment_status, form }

/-- `DepositoryReceipt` from `equities.rs`: attributes applicable to
depository receipts, field offsets `1`, `2`, `3`, `4`. -/
structure DepositoryReceipt where
  dependency : Dependency
  redemption : RedemptionConversion
  income : Income
  form : Form
deriving DecidableEq, Repr

/-- `DepositoryReceipt::from_bytes` as generated by `impl_group!`. -/
def DepositoryReceipt.from_bytes (src : List Char) : Res DepositoryReceipt :=
  Res.bind (Dependency.from_bytes src (1 + 2)) fun dependency =>
  Res.bind (RedemptionConversion.from_bytes src (2 + 2)) fun redemption =>
  Res.bind (Income.from_bytes src (3 + 2)) fun income =>
  Res.bind (Form.from_bytes src (4 + 2)) fun form =>
  Res.ok { dependency, redemption, income, form }

/-- `Structured` from `equities.rs`: attributes applicable to structured
equities, field offsets `1`, `2`, `3`, `4`. -/
structure Structured where
  kind : Kind
  distribution : Distribution
  repayment : Repayment
  underlying : Underlying
deriving DecidableEq, Repr

/-- `Structured::from_bytes` as generated by `impl_group!`. -/
def Structured.from_bytes (src : List Char) : Res Structured :=
  Res.bind (Kind.from_bytes src (1 + 2)) fun kind =>
  Res.bind (Distribution.from_bytes src (2 + 2)) fun distribution =>
  Res.bind (Repayment.from_bytes src (3 + 2)) fun repayment =>
  Res.bind (Underlying.from_bytes src (4 + 2)) fun underlying =>
  Res.ok { kind, distribution, repayment, underlying }

/-- `Other` from `equities.rs`: attributes applicable to other equities,
field offsets `1`, `2`, `3`, `4`. -/
structure Other where
  attr1 : NotApplicable
  attr2 : NotApplicable
  attr3 : NotApplicable
  form : Form
deriving DecidableEq, Repr

/-- `Other::from_bytes` as generated by `impl_group!`. -/
def Other.from_bytes (src : List Char) : Res Other :=
  Res.bind (NotApplicable.from_bytes src (1 + 2)) fun attr1 =>
  Res.bind (NotApplicable.from_bytes src (2 + 2)) fun attr2 =>
  Res.bind (NotApplicable.from_bytes src (3 + 2)) fun attr3 =>
  Res.bind (Form.from_bytes src (4 + 2)) fun form =>
  Res.ok { attr1, attr2, attr3, form }

/-- `Equity` from `equities.rs`: the equities category enumeration, with
group tags `S`, `P`, `C`, `F`, `L`, `D`, `Y`, `M` (variant
`PreferedConvertible` is spelled as in the source). -/
inductive Equity where
  | Common (group : Common)
  | Preferred (group : Preferred)
  | Convertible (group : Convertible)
  | PreferedConvertible (group : PreferredConvertible)
  | LlpUnit (group : LlpUnit)
  | DepositoryReceipt (group : DepositoryReceipt)
  | Structured (group : Structured)
  | Other (group : Other)
deriving DecidableEq, Repr

/-- `Equity::from_bytes` as generated by `impl_category!`: length-gate the
slice, then dispatch on `value[GROUP_IDX]` over the group tags, falling
through to `InvalidGroup`. -/
def Equity.from_bytes (value : List Char) : Res Equity :=
  if value.length ≠ CFI_LENGTH then
    Res.err Error.InvalidLength
  else
    Res.bind (sliceIndex value GROUP_IDX) fun g =>
      match g with
      | 'S' => Res.map Equity.Common (Common.from_bytes value)
      | 'P' => Res.map Equity.Preferred (Preferred.from_bytes value)
      | 'C' => Res.map Equity.Convertible (Convertible.from_bytes value)
      | 'F' => Res.map Equity.PreferedConvertible (PreferredConvertible.from_bytes value)
      | 'L' => Res.map Equity.LlpUnit (LlpUnit.from_bytes value)
      | 'D' => Res.map Equity.DepositoryReceipt (DepositoryReceipt.from_bytes value)
      | 'Y' => Res.map Equity.Structured (Structured.from_bytes value)
      | 'M' => Res.map Equity.Other (Other.from_bytes value)
      | other => Res.err (Error.InvalidGroup other)

end equities

/-- `Code` from `lib.rs`: the hierarchical enumeration of CFI codes. The
payload types of the structured variants other than `Equity`
(`debt::Debt`, `civ::Civ`, `rights::Right`, `options::Listed`,
`futures::Future`, `swaps::Swap`) are modelled as `Unit`: `Code::from_bytes`
dispatches only the `b'E'` arm, so no operation in this development can
construct or inspect those payloads, and their defining modules use an
older invocation syntax that the macros in `macros.rs` no longer accept. -/
inductive Code where
  | Equity (payload : equities.Equity)
  | Debt (payload : Unit)
  | Civ (payload : Unit)
  | Right (payload : Unit)
  | ListedOption (payload : Unit)
  | Future (payload : Unit)
  | Swap (payload : Unit)
  | UnlistedOption (payload : Unit)
  | Spot (payload : Unit)
  | Forward (payload : Unit)
  | Strategy (payload : Unit)
  | Financing (payload : Unit)
  | Referential (payload : Unit)
  | Misc (payload : Unit)
deriving DecidableEq, Repr

/-- `Code::from_bytes` from `lib.rs`: length-gate the slice, then match
`src[CATEGORY_IDX]`; the only implemented arm is `b'E'` (delegating to
`equities::Equity::from_bytes` and wrapping the result); every other byte
falls through to `InvalidCategory(other as char)`. -/
def Code.from_bytes (src : List Char) : Res Code :=
  if src.length ≠ CFI_LENGTH then
    Res.err Error.InvalidLength
  else
    Res.bind (sliceIndex src CATEGORY_IDX) fun c =>
      match c with
      | 'E' => Res.map Code.Equity (equities.Equity.from_bytes src)
      | other => Res.err (Error.InvalidCategory other)

namespace equities

/-- Modelled from the spec: no encoder exists anywhere in the source tree,
but §4.1 requires `encode(Attribute) -> byte`, total and infallible, the
inverse of decode (each member maps back to its assigned byte, `Undefined`
to `X`). `VotingRight` encoder. -/
def VotingRight.to_byte : VotingRight → Char
  | VotingRight.Voting => 'V'
  | VotingRight.NonVoting => 'N'
  | VotingRight.Restricted => 'R'
  | VotingRight.Enhanced => 'E'
  | VotingRight.Undefined => 'X'

/-- Modelled from the spec (§4.1 encode): `Ownership` encoder. -/
def Ownership.to_byte : Ownership → Char
  | Ownership.Restricted => 'T'
  | Ownership.Free => 'U'
  | Ownership.Undefined => 'X'

/-- Modelled from the spec (§4.1 encode): `PaymentStatus` encoder. -/
def PaymentStatus.to_byte : PaymentStatus → Char
  | PaymentStatus.Fully => 'F'
  | PaymentStatus.Nil => 'O'
  | PaymentStatus.Partial => 'P'
  | PaymentStatus.Undefined => 'X'

/-- Modelled from the spec (§4.1 encode): `Redemption` encoder. -/
def Redemption.to_byte : Redemption → Char
  | Redemption.Redeemable => 'R'
  | Redemption.Extendible => 'E'
  | Redemption.RedeemableExtendible => 'T'
  | Redemption.Exchangeable => 'G'
  | Redemption.RedeemableExchangeableExtendible => 'A'
  | Redemption.RedeemableExchangeable => 'C'
  | Redemption.Perpetual => 'N'
  | Redemption.Undefined => 'X'

/-- Modelled from the spec (§4.1 encode): `Income` encoder. -/
def Income.to_byte : Income → Char
  | Income.FixedRate => 'F'
  | Income.CumulativeFixedRate => 'C'
  | Income.Participating => 'P'
  | Income.CumulativeParticipating => 'Q'
  | Income.AdjustableRate => 'A'
  | Income.NormalRate => 'N'
  | Income.AuctionRate => 'U'
  | Income.Undefined => 'X'

/-- Modelled from the spec (§4.1 encode): `Dependency` encoder. -/
def Dependency.to_byte : Dependency → Char
  | Dependency.Common => 'S'
  | Dependency.Preferred => 'P'
  | Dependency.CommonConvertible => 'C'
  | Dependency.PreferredConvertible => 'F'
  | Dependency.LlpUnit => 'L'
  | Dependency.Other => 'M'
  | Dependency.Undefined => 'X'

/-- Modelled from the spec (§4.1 encode): `RedemptionConversion` encoder. -/
def RedemptionConversion.to_byte : RedemptionConversion → Char
  | RedemptionConversion.Redeemable => 'R'
  | RedemptionConversion.Perpetual => 'N'
  | RedemptionConversion.Convertible => 'B'
  | RedemptionConversion.ConvertibleRedeemable => 'D'
  | RedemptionConversion.Undefined => 'X'

/-- Modelled from the spec (§4.1 encode): `Kind` encoder. -/
def Kind.to_byte : Kind → Char
  | Kind.Tracker => 'A'
  | Kind.Outperforming => 'B'
  | Kind.Bonus => 'C'
  | Kind.OutperformanceBonus => 'D'
  | Kind.TwinWin => 'E'
  | Kind.Other => 'M'
  | Kind.Undefined => 'X'

/-- Modelled from the spec (§4.1 encode): `Distribution` encoder. -/
def Distribution.to_byte : Distribution → Char
  | Distribution.Dividend => 'D'
  | Distribution.None => 'Y'
  | Distribution.Other => 'M'
  | Distribution.Undefined => 'X'

/-- Modelled from the spec (§4.1 encode): `Repayment` encoder. -/
def Repayment.to_byte : Repayment → Char
  | Repayment.Cash => 'F'
  | Repayment.Physical => 'V'
  | Repayment.Elect => 'E'
  | Repayment.Other => 'M'
  | Repayment.Undefined => 'X'

/-- Modelled from the spec (§4.1 encode): `Underlying` encoder. -/
def Underlying.to_byte : Underlying → Char
  | Underlying.Baskets => 'B'
  | Underlying.Equities => 'S'
  | Underlying.Debt => 'D'
  | Underlying.Derivatives => 'G'
  | Underlying.Commodities => 'T'
  | Underlying.Currencies => 'C'
  | Underlying.Indices => 'I'
  | Underlying.Rates => 'N'
  | Underlying.Other => 'M'
  | Underlying.Undefined => 'X'

/-- Modelled from the spec (§4.1 encode): `Form` encoder. -/
def formToByte : Form → Char
  | Form.Bearer => 'B'
  | Form.Registered => 'R'
  | Form.BearerRegistered => 'N'
  | Form.Other => 'M'
  | Form.Undefined => 'X'

/-- Modelled from the spec (§4.1 encode): `NotApplicable` encoder. -/
def notApplicableToByte : NotApplicable → Char
  | NotApplicable.Undefined => 'X'

/-- Modelled from the spec (§4.2 encode): a group's four attribute bytes in
position order, here for `Common`. -/
def Common.to_bytes (group : Common) : List Char :=
  [group.voting_right.to_byte, group.ownership.to_byte,
   group.payment_status.to_byte, formToByte group.form]

/-- Modelled from the spec (§4.2 encode): `Preferred` group bytes. -/
def Preferred.to_bytes (group : Preferred) : List Char :=
  [group.voting_right.to_byte, group.redemption.to_byte,
   group.income.to_byte, formToByte group.form]

/-- Modelled from the spec (§4.2 encode): `Convertible` group bytes. -/
def Convertible.to_bytes (group : Convertible) : List Char :=
  [group.voting_right.to_byte, group.ownership.to_byte,
   group.payment_status.to_byte, formToByte group.form]

/-- Modelled from the spec (§4.2 encode): `PreferredConvertible` group bytes. -/
def PreferredConvertible.to_bytes (group : PreferredConvertible) : List Char :=
  [group.voting_right.to_byte, group.redemption.to_byte,
   group.income.to_byte, formToByte group.form]

/-- Modelled from the spec (§4.2 encode): `LlpUnit` group bytes. -/
def LlpUnit.to_bytes (group : LlpUnit) : List Char :=
  [group.voting_right.to_byte, group.ownership.to_byte,
   group.payment_status.to_byte, formToByte group.form]

/-- Modelled from the spec (§4.2 encode): `DepositoryReceipt` group bytes. -/
def DepositoryReceipt.to_bytes (group : DepositoryReceipt) : List Char :=
  [group.dependency.to_byte, group.redemption.to_byte,
   group.income.to_byte, formToByte group.form]

/-- Modelled from the spec (§4.2 encode): `Structured` group bytes. -/
def Structured.to_bytes (group : Structured) : List Char :=
  [group.kind.to_byte, group.distribution.to_byte,
   group.repayment.to_byte, group.underlying.to_byte]

/-- Modelled from the spec (§4.2 encode): `Other` group bytes. -/
def Other.to_bytes (group : Other) : List Char :=
  [notApplicableToByte group.attr1, notApplicableToByte group.attr2,
   notApplicableToByte group.attr3, formToByte group.form]

/-- Modelled from the spec (§4.3/§4.4 encode): the group's own tag byte
followed by the group's four attribute bytes. -/
def Equity.to_bytes : Equity → List Char
  | Equity.Common group => 'S' :: group.to_bytes
  | Equity.Preferred group => 'P' :: group.to_bytes
  | Equity.Convertible group => 'C' :: group.to_bytes
  | Equity.PreferedConvertible group => 'F' :: group.to_bytes
  | Equity.LlpUnit group => 'L' :: group.to_bytes
  | Equity.DepositoryReceipt group => 'D' :: group.to_bytes
  | Equity.Structured group => 'Y' :: group.to_bytes
  | Equity.Other group => 'M' :: group.to_bytes

end equities

/-- Modelled from the spec (§4.4 `encode(Code) -> bytes[6]`): byte 0 is the
category's own tag; for the structured `Equity` category the remaining five
bytes come from the category encoder. The spec leaves the trailing bytes of
the single-tag and unimplemented categories as "an already-fixed
placeholder"; `X` placeholders are used here (no claim depends on them). -/
def Code.to_bytes : Code → List Char
  | Code.Equity payload => 'E' :: payload.to_bytes
  | Code.Debt _ => 'D' :: ['X', 'X', 'X', 'X', 'X']
  | Code.Civ _ => 'C' :: ['X', 'X', 'X', 'X', 'X']
  | Code.Right _ => 'R' :: ['X', 'X', 'X', 'X', 'X']
  | Code.ListedOption _ => 'O' :: ['X', 'X', 'X', 'X', 'X']
  | Code.Future _ => 'F' :: ['X', 'X', 'X', 'X', 'X']
  | Code.Swap _ => 'S' :: ['X', 'X', 'X', 'X', 'X']
  | Code.UnlistedOption _ => 'H' :: ['X', 'X', 'X', 'X', 'X']
  | Code.Spot _ => 'I' :: ['X', 'X', 'X', 'X', 'X']
  | Code.Forward _ => 'J' :: ['X', 'X', 'X', 'X', 'X']
  | Code.Strategy _ => 'K' :: ['X', 'X', 'X', 'X', 'X']
  | Code.Financing _ => 'L' :: ['X', 'X', 'X', 'X', 'X']
  | Code.Referential _ => 'T' :: ['X', 'X', 'X', 'X', 'X']
  | Code.Misc _ => 'M' :: ['X', 'X', 'X', 'X', 'X']

/-- If an early-return chain step succeeds, its scrutinee succeeded. -/
theorem Res.bind_eq_ok {α β : Type} {x : Res α} {f : α → Res β} {v : β}
    (h : Res.bind x f = Res.ok v) : ∃ w, x = Res.ok w ∧ f w = Res.ok v := by
  cases x with
  | ok w => exact ⟨w, rfl, h⟩
  | err e => exact Res.noConfusion h
  | panicked => exact Res.noConfusion h

/-- If a wrapping step succeeds, its scrutinee succeeded. -/
theorem Res.map_eq_ok {α β : Type} {f : α → β} {x : Res α} {v : β}
    (h : Res.map f x = Res.ok v) : ∃ w, x = Res.ok w ∧ f w = v := by
  cases x with
  | ok w => exact ⟨w, rfl, Res.ok.inj h⟩
  | err e => exact Res.noConfusion h
  | panicked => exact Res.noConfusion h

/-- An attribute read at index `6` never succeeds: on a slice of any length
other than `CFI_LENGTH` it returns `InvalidLength`, and on a slice of
length `CFI_LENGTH = 6` the index is out of bounds, so it panics. This is
the heart of the off-by-one in `impl_group!`: field offsets are written
`1`, `2`, `3`, `4`, so `offset + 2` addresses indices `3`, `4`, `5`, `6`. -/
theorem attrFromBytes_six_ne_ok {α : Type} (fromByte : Char → Res α)
    (value : List Char) (v : α) : attrFromBytes fromByte value 6 ≠ Res.ok v := by
  intro h
  unfold attrFromBytes at h
  by_cases hl : value.length = CFI_LENGTH
  · have hnone : value.get? 6 = none := by
      rw [List.get?_eq_none]
      rw [hl]
      decide
    rw [if_neg (by simp [hl]), sliceIndex, hnone] at h
    exact Res.noConfusion h
  · rw [if_pos hl] at h
    exact Res.noConfusion h

namespace equities

/-- `Common::from_bytes` never succeeds (its last field reads index 6). -/
theorem common_never_ok (src : List Char) (g : Common) :
    Common.from_bytes src ≠ Res.ok g := by
  intro h
  unfold Common.from_bytes at h
  obtain ⟨a1, h1, h⟩ := Res.bind_eq_ok h
  obtain ⟨a2, h2, h⟩ := Res.bind_eq_ok h
  obtain ⟨a3, h3, h⟩ := Res.bind_eq_ok h
  obtain ⟨a4, h4, _⟩ := Res.bind_eq_ok h
  exact attrFromBytes_six_ne_ok Form.from_byte src a4 h4

/-- `Preferred::from_bytes` never succeeds (its last field reads index 6). -/
theorem preferred_never_ok (src : List Char) (g : Preferred) :
    Preferred.from_bytes src ≠ Res.ok g := by
  intro h
  unfold Preferred.from_bytes at h
  obtain ⟨a1, h1, h⟩ := Res.bind_eq_ok h
  obtain ⟨a2, h2, h⟩ := Res.bind_eq_ok h
  obtain ⟨a3, h3, h⟩ := Res.bind_eq_ok h
  obtain ⟨a4, h4, _⟩ := Res.bind_eq_ok h
  exact attrFromBytes_six_ne_ok Form.from_byte src a4 h4

/-- `Convertible::from_bytes` never succeeds (its last field reads index 6). -/
theorem convertible_never_ok (src : List Char) (g : Convertible) :
    Convertible.from_bytes src ≠ Res.ok g := by
  intro h
  unfold Convertible.from_bytes at h
  obtain ⟨a1, h1, h⟩ := Res.bind_eq_ok h
  obtain ⟨a2, h2, h⟩ := Res.bind_eq_ok h
  obtain ⟨a3, h3, h⟩ := Res.bind_eq_ok h
  obtain ⟨a4, h4, _⟩ := Res.bind_eq_ok h
  exact attrFromBytes_six_ne_ok Form.from_byte src a4 h4

/-- `PreferredConvertible::from_bytes` never succeeds (its last field reads
index 6). -/
theorem preferred_convertible_never_ok (src : List Char) (g : PreferredConvertible) :
    PreferredConvertible.from_bytes src ≠ Res.ok g := by
  intro h
  unfold PreferredConvertible.from_bytes at h
  obtain ⟨a1, h1, h⟩ := Res.bind_eq_ok h
  obtain ⟨a2, h2, h⟩ := Res.bind_eq_ok h
  obtain ⟨a3, h3, h⟩ := Res.bind_eq_ok h
  obtain ⟨a4, h4, _⟩ := Res.bind_eq_ok h
  exact attrFromBytes_six_ne_ok Form.from_byte src a4 h4

/-- `LlpUnit::from_bytes` never succeeds (its last field reads index 6). -/
theorem llp_unit_never_ok (src : List Char) (g : LlpUnit) :
    LlpUnit.from_bytes src ≠ Res.ok g := by
  intro h
  unfold LlpUnit.from_bytes at h
  obtain ⟨a1, h1, h⟩ := Res.bind_eq_ok h
  obtain ⟨a2, h2, h⟩ := Res.bind_eq_ok h
  obtain ⟨a3, h3, h⟩ := Res.bind_eq_ok h
  obtain ⟨a4, h4, _⟩ := Res.bind_eq_ok h
  exact attrFromBytes_six_ne_ok Form.from_byte src a4 h4

/-- `DepositoryReceipt::from_bytes` never succeeds (its last field reads
index 6). -/
theorem depository_receipt_never_ok (src : List Char) (g : DepositoryReceipt) :
    DepositoryReceipt.from_bytes src ≠ Res.ok g := by
  intro h
  unfold DepositoryReceipt.from_bytes at h
  obtain ⟨a1, h1, h⟩ := Res.bind_eq_ok h
  obtain ⟨a2, h2, h⟩ := Res.bind_eq_ok h
  obtain ⟨a3, h3, h⟩ := Res.bind_eq_ok h
  obtain ⟨a4, h4, _⟩ := Res.bind_eq_ok h
  exact attrFromBytes_six_ne_ok Form.from_byte src a4 h4

/-- `Structured::from_bytes` never succeeds (its last field reads index 6). -/
theorem structured_never_ok (src : List Char) (g : Structured) :
    Structured.from_bytes src ≠ Res.ok g := by
  intro h
  unfold Structured.from_bytes at h
  obtain ⟨a1, h1, h⟩ := Res.bind_eq_ok h
  obtain ⟨a2, h2, h⟩ := Res.bind_eq_ok h
  obtain ⟨a3, h3, h⟩ := Res.bind_eq_ok h
  obtain ⟨a4, h4, _⟩ := Res.bind_eq_ok h
  exact attrFromBytes_six_ne_ok Underlying.from_byte src a4 h4

/-- `Other::from_bytes` never succeeds (its last field reads index 6). -/
theorem other_group_never_ok (src : List Char) (g : Other) :
    Other.from_bytes src ≠ Res.ok g := by
  intro h
  unfold Other.from_bytes at h
  obtain ⟨a1, h1, h⟩ := Res.bind_eq_ok h
  obtain ⟨a2, h2, h⟩ := Res.bind_eq_ok h
  obtain ⟨a3, h3, h⟩ := Res.bind_eq_ok h
  obtain ⟨a4, h4, _⟩ := Res.bind_eq_ok h
  exact attrFromBytes_six_ne_ok Form.from_byte src a4 h4

/-- `Equity::from_bytes` never succeeds: every group arm delegates to a
group decoder whose last field reads index 6. -/
theorem equity_never_ok (src : List Char) (e : Equity) :
    Equity.from_bytes src ≠ Res.ok e := by
  intro h
  unfold Equity.from_bytes at h
  split at h
  · exact Res.noConfusion h
  · obtain ⟨g, hg, h⟩ := Res.bind_eq_ok h
    split at h
    · obtain ⟨w, hw, _⟩ := Res.map_eq_ok h
      exact common_never_ok src w hw
    · obtain ⟨w, hw, _⟩ := Res.map_eq_ok h
      exact preferred_never_ok src w hw
    · obtain ⟨w, hw, _⟩ := Res.map_eq_ok h
      exact convertible_never_ok src w hw
    · obtain ⟨w, hw, _⟩ := Res.map_eq_ok h
      exact preferred_convertible_never_ok src w hw
    · obtain ⟨w, hw, _⟩ := Res.map_eq_ok h
      exact llp_unit_never_ok src w hw
    · obtain ⟨w, hw, _⟩ := Res.map_eq_ok h
      exact depository_receipt_never_ok src w hw
    · obtain ⟨w, hw, _⟩ := Res.map_eq_ok h
      exact structured_never_ok src w hw
    · obtain ⟨w, hw, _⟩ := Res.map_eq_ok h
      exact other_group_never_ok src w hw
    · exact Res.noConfusion h

end equities

/-- `Code::from_bytes` never succeeds: the only dispatch arm delegates to
`Equity::from_bytes`, which never succeeds. -/
theorem code_never_ok (src : List Char) (v : Code) :
    Code.from_bytes src ≠ Res.ok v := by
  intro h
  unfold Code.from_bytes at h
  split at h
  · exact Res.noConfusion h
  · obtain ⟨c, hc, h⟩ := Res.bind_eq_ok h
    split at h
    · obtain ⟨w, hw, _⟩ := Res.map_eq_ok h
      exact equities.equity_never_ok src w hw
    · exact Res.noConfusion h

/-- On a six-byte slice whose category byte is not `b'E'`,
`Code::from_bytes` falls through to `InvalidCategory`. -/
theorem Code.from_bytes_invalid_category (src : List Char) (c : Char)
    (hl : src.length = CFI_LENGTH) (hc : src.get? 0 = some c) (hne : c ≠ 'E') :
    Code.from_bytes src = Res.err (Error.InvalidCategory c) := by
  unfold Code.from_bytes
  rw [if_neg (by simp [hl])]
  simp only [sliceIndex, CATEGORY_IDX, hc, Res.bind]

/-- On a six-byte slice whose category byte is `b'E'`, `Code::from_bytes`
delegates to `equities::Equity::from_bytes` and wraps the result. -/
theorem Code.from_bytes_delegates_equity (src : List Char)
    (hl : src.length = CFI_LENGTH) (hc : src.get? 0 = some 'E') :
    Code.from_bytes src = Res.map Code.Equity (equities.Equity.from_bytes src) := by
  unfold Code.from_bytes
  rw [if_neg (by simp [hl])]
  simp only [sliceIndex, CATEGORY_IDX, hc, Res.bind]

/-- On a six-byte slice whose group byte is not one of the Equity group
tags `S`, `P`, `C`, `F`, `L`, `D`, `Y`, `M`, `equities::Equity::from_bytes`
falls through to `InvalidGroup`. -/
theorem equities.Equity.from_bytes_invalid_group (src : List Char) (c : Char)
    (hl : src.length = CFI_LENGTH) (hg : src.get? 1 = some c)
    (hne : c ∉ (['S', 'P', 'C', 'F', 'L', 'D', 'Y', 'M'] : List Char)) :
    equities.Equity.from_bytes src = Res.err (Error.InvalidGroup c) := by
  simp only [List.mem_cons, List.not_mem_nil, or_false, not_or] at hne
  obtain ⟨hS, hP, hC, hF, hL, hD, hY, hM⟩ := hne
  unfold equities.Equity.from_bytes
  rw [if_neg (by simp [hl])]
  simp only [sliceIndex, GROUP_IDX, hg, Res.bind]

/-- Claim C1: the spec asserts that parsing never panics and that no
out-of-bounds slice access occurs for any 6-byte input. The code violates
this: on `"ESVVUF"` (length 6, category `E`, group `S`, and legal bytes at
the three indices the group decoder checks first) the `Common` group
decoder reads slice index 6 and panics. -/
theorem claim_c1_oob_panic :
    Code.from_bytes ['E', 'S', 'V', 'V', 'U', 'F'] = Res.panicked := by
  decide

/-- Claim C2: the success branch of `Code::from_bytes` is unreachable — no
input yields `Ok`; every 6-byte input whose first byte is not `b'E'` is
rejected with `InvalidCategory`, and every 6-byte input starting with
`b'E'` either fails with a typed error or reaches the out-of-bounds read
at index 6. -/
theorem claim_c2_ok_unreachable :
    (∀ (src : List Char) (v : Code), Code.from_bytes src ≠ Res.ok v) ∧
    (∀ (src : List Char) (c : Char), src.length = 6 → src.get? 0 = some c →
      c ≠ 'E' → Code.from_bytes src = Res.err (Error.InvalidCategory c)) ∧
    (∀ src : List Char, src.length = 6 → src.get? 0 = some 'E' →
      (∃ e, Code.from_bytes src = Res.err e) ∨ Code.from_bytes src = Res.panicked) := by
  refine ⟨code_never_ok, ?_, ?_⟩
  · intro src c hl hc hne
    exact Code.from_bytes_invalid_category src c hl hc hne
  · intro src hl hc
    cases h : Code.from_bytes src with
    | ok v => exact absurd h (code_never_ok src v)
    | err e => exact Or.inl ⟨e, rfl⟩
    | panicked => exact Or.inr rfl

/-- Witness for C2 at concrete inputs. -/
theorem claim_c2_ok_unreachable_witness :
    Code.from_bytes ['Z', 'Z', 'Z', 'Z', 'Z', 'Z'] = Res.err (Error.InvalidCategory 'Z') :=
  claim_c2_ok_unreachable.2.1 ['Z', 'Z', 'Z', 'Z', 'Z', 'Z'] 'Z' rfl rfl (by decide)

/-- Claim C3: the spec's round-trip law `decode(encode(v)) == v` fails on
the code. Encoding the constructible value Equity/Common with all four
attributes `Undefined` (per the spec's encoder) yields `"ESXXXX"`, and
decoding that is rejected with `InvalidAttribute(3, 'X')` instead of
returning the value: `VotingRight` is validated at index 3 (off-by-one)
and its `from_byte` has no `b'X'` arm, so no decode can ever reproduce an
`Undefined` attribute. -/
theorem claim_c3_roundtrip_fails :
    Code.to_bytes (Code.Equity (equities.Equity.Common
      { voting_right := equities.VotingRight.Undefined,
        ownership := equities.Ownership.Undefined,
        payment_status := equities.PaymentStatus.Undefined,
        form := Form.Undefined })) = ['E', 'S', 'X', 'X', 'X', 'X'] ∧
    Code.from_bytes (Code.to_bytes (Code.Equity (equities.Equity.Common
      { voting_right := equities.VotingRight.Undefined,
        ownership := equities.Ownership.Undefined,
        payment_status := equities.PaymentStatus.Undefined,
        form := Form.Undefined }))) = Res.err (Error.InvalidAttribute 3 'X') := by
  exact ⟨rfl, by decide⟩

/-- Claim C4: the spec asserts `"ESVUFB"` decodes to Equity/Common with
`Voting`/`Free`/`Fully`/`Bearer` read from bytes 2–5. The code instead
validates byte 3 (`'U'`) against `VotingRight` and rejects it. -/
theorem claim_c4_esvufb_rejected :
    Code.from_bytes ['E', 'S', 'V', 'U', 'F', 'B'] =
      Res.err (Error.InvalidAttribute 3 'U') := by
  decide

/-- Claim C5: the spec asserts `"ESXXXX"` decodes successfully with all
four attributes `Undefined`, `'X'` being legal at every attribute
position. The code instead rejects it with `InvalidAttribute(3, 'X')`:
the generated `from_byte` has no `b'X'` arm (the `Undefined = b'X'`
variant is appended outside the macro's variant repetition), so `'X'` is
accepted nowhere, and the first attribute check reads index 3, not 2. -/
theorem claim_c5_esxxxx_rejected :
    Code.from_bytes ['E', 'S', 'X', 'X', 'X', 'X'] =
      Res.err (Error.InvalidAttribute 3 'X') := by
  decide

/-- Counterexample to claim C6: the claim says the single-tag category
`'I'` (Spot) decodes successfully with nothing validated beyond length and
tag; the code rejects `"IXXXXX"` with `InvalidCategory('I')`. -/
theorem claim_c6_counterexample :
    Code.from_bytes ['I', 'X', 'X', 'X', 'X', 'X'] =
      Res.err (Error.InvalidCategory 'I') ∧
    Code.from_bytes ['I', 'X', 'X', 'X', 'X', 'X'] ≠ Res.ok (Code.Spot ()) := by
  decide

/-- Claim C6 as amended: for every 6-byte input, `Code::from_bytes`
inspects byte 0 against the single implemented category tag `'E'`; on any
other byte — including the other 13 documented category tags — it fails
with `InvalidCategory` carrying the offending byte, and on `'E'` it
delegates to the Equity decoder and wraps the result. -/
theorem claim_c6_category_dispatch (src : List Char) (c : Char)
    (hl : src.length = 6) (hc : src.get? 0 = some c) :
    (c ≠ 'E' → Code.from_bytes src = Res.err (Error.InvalidCategory c)) ∧
    (c = 'E' → Code.from_bytes src = Res.map Code.Equity (equities.Equity.from_bytes src)) := by
  constructor
  · intro hne
    exact Code.from_bytes_invalid_category src c hl hc hne
  · intro he
    subst he
    exact Code.from_bytes_delegates_equity src hl hc

/-- Witness for the amended C6 at concrete inputs. -/
theorem claim_c6_category_dispatch_witness :
    Code.from_bytes ['Q', 'S', 'V', 'U', 'F', 'B'] =
      Res.err (Error.InvalidCategory 'Q') ∧
    Code.from_bytes ['E', 'S', 'X', 'X', 'X', 'X'] =
      Res.map Code.Equity (equities.Equity.from_bytes ['E', 'S', 'X', 'X', 'X', 'X']) :=
  ⟨(claim_c6_category_dispatch ['Q', 'S', 'V', 'U', 'F', 'B'] 'Q' rfl rfl).1 (by decide),
   (claim_c6_category_dispatch ['E', 'S', 'X', 'X', 'X', 'X'] 'E' rfl rfl).2 rfl⟩

/-- Claim C7: the spec asserts the reported error corresponds to the
earliest invalid position in scan order, attributes being checked at
positions 2, 3, 4, 5 in ascending order. On `"ES99FB"` positions 2 and 3
are both invalid and the claim requires an error at position 2, but the
code never validates byte 2: it checks `VotingRight` at index 3 and
reports `InvalidAttribute(3, '9')`. -/
theorem claim_c7_scan_order :
    Code.from_bytes ['E', 'S', '9', '9', 'F', 'B'] =
      Res.err (Error.InvalidAttribute 3 '9') := by
  decide

/-- Claim C8: the length gate — for every input whose length is not 6,
`Code::from_bytes` yields `InvalidLength` regardless of the byte contents,
before any positional inspection. -/
theorem claim_c8_length_gate (src : List Char) (h : src.length ≠ 6) :
    Code.from_bytes src = Res.err Error.InvalidLength := by
  have h' : src.length ≠ CFI_LENGTH := h
  unfold Code.from_bytes
  rw [if_pos h']

/-- Witness for C8 at the spec's scenario 3: the 2-byte input `"ES"`. -/
theorem claim_c8_length_gate_witness :
    Code.from_bytes ['E', 'S'] = Res.err Error.InvalidLength :=
  claim_c8_length_gate ['E', 'S'] (by decide)

/-- Claim C9: the spec asserts `"ESVUF9"` yields
`InvalidAttribute(position = 5, byte = '9')`. The code instead validates
`VotingRight` at index 3 and rejects `'U'` there, reporting
`InvalidAttribute(3, 'U')`. -/
theorem claim_c9_attribute_error_payload :
    Code.from_bytes ['E', 'S', 'V', 'U', 'F', '9'] =
      Res.err (Error.InvalidAttribute 3 'U') := by
  decide

/-- Claim C10: the group gate — for every 6-byte input whose category byte
is `'E'` (the only structured category the root dispatches), if byte 1 is
not one of Equity's group tags `S`, `P`, `C`, `F`, `L`, `D`, `Y`, `M`,
decoding fails with `InvalidGroup` carrying the offending byte. -/
theorem claim_c10_group_gate (src : List Char) (c : Char)
    (hl : src.length = 6) (h0 : src.get? 0 = some 'E') (h1 : src.get? 1 = some c)
    (hne : c ∉ (['S', 'P', 'C', 'F', 'L', 'D', 'Y', 'M'] : List Char)) :
    Code.from_bytes src = Res.err (Error.InvalidGroup c) := by
  rw [Code.from_bytes_delegates_equity src hl h0]
  rw [equities.Equity.from_bytes_invalid_group src c hl h1 hne]
  rfl

/-- Witness for C10 at the spec's scenario 4: `"EZVUFB"` yields
`InvalidGroup('Z')`. -/
theorem claim_c10_group_gate_witness :
    Code.from_bytes ['E', 'Z', 'V', 'U', 'F', 'B'] = Res.err (Error.InvalidGroup 'Z') :=
  claim_c10_group_gate ['E', 'Z', 'V', 'U', 'F', 'B'] 'Z' rfl rfl rfl (by decide)
